import Mathlib

/-!
Verification development for the MiniLang compiler front end
(lexer, recursive-descent parser, semantic analyzer, TAC generator).
Each Python source function is shallowly embedded as an executable Lean
definition; stateful code threads its state explicitly.  Machine strings
are Lean strings; Python dicts are association lists with latest-wins
lookup; Python exceptions are Except values.
-/

deriving instance DecidableEq for Except

namespace MiniLang

/-- Python str.lower on the ASCII text this language uses
(String.toLower, written over the character list so that it evaluates
by kernel reduction). -/
def strLower (s : String) : String :=
  String.mk (s.data.map Char.toLower)

/-- Numeric literal values.  Python stores int or float; we model the
int case exactly and the float case by its decimal digits (integer part
as a Nat and the fractional digit list), which is exact for every
literal the scanner can produce and keeps the int/float tag that the
semantic analyzer inspects via isinstance. -/
inductive NumVal where
  | I : Nat → NumVal
  | R : Nat → List Nat → NumVal
deriving DecidableEq, Repr

/-- Decimal rendering of a numeric value, as used when a literal is
materialised into a TAC instruction (Python str() of the value).  For
floats this matches Python repr on the literals with a nonempty,
zero-free fractional part and renders n.0 for an absorbed bare dot. -/
def NumVal.render : NumVal → String
  | NumVal.I n => toString n
  | NumVal.R ip fp =>
      toString ip ++ "." ++ (if fp.isEmpty then "0" else String.join (fp.map (fun d => toString d)))

/-- ast_nodes.TypeNode -/
structure TypeNode where
  type_name : String
deriving DecidableEq, Repr

/-- ast_nodes.DeclarationNode -/
structure DeclarationNode where
  identifiers : List String
  type_node : TypeNode
deriving DecidableEq, Repr

/-- The AST node variants of ast_nodes.py.  Binary and unary operators
store the operator token value string (the Python nodes store the
whole Token and every consumer reads only op.value).  If/While branches
and bodies are statement lists, the only shape the parser produces. -/
inductive Node where
  | programN : String → List DeclarationNode → List Node → Node
  | assignmentN : String → Node → Node
  | binOpN : Node → String → Node → Node
  | unaryOpN : String → Node → Node
  | varN : String → Node
  | numN : NumVal → Node
  | booleanN : Bool → Node
  | ifN : Node → List Node → List Node → Node
  | whileN : Node → List Node → Node
  | readN : String → Node
  | writeN : Node → Node
deriving Repr

/-! ## TAC generator (tac.py) -/

/-- The mutable state of tac.TACGenerator: two counters and the
append-only instruction buffer. -/
structure GenState where
  temp_count : Nat
  label_count : Nat
  code : List String
deriving DecidableEq, Repr

/-- self.code.append(instr) -/
def emit (instr : String) (s : GenState) : GenState :=
  { s with code := s.code ++ [instr] }

/-- TACGenerator.new_temp -/
def new_temp (s : GenState) : String × GenState :=
  ("t" ++ toString s.temp_count, { s with temp_count := s.temp_count + 1 })

/-- TACGenerator.new_label -/
def new_label (s : GenState) : String × GenState :=
  ("L" ++ toString s.label_count, { s with label_count := s.label_count + 1 })

/-- The op_map dict of TACGenerator.generate_binop, with the
dict.get default of value.upper(). -/
def op_map (op : String) : String :=
  if op = "+" then "ADD"
  else if op = "-" then "SUB"
  else if op = "*" then "MUL"
  else if op = "/" then "DIV"
  else if op = "=" then "EQ"
  else if op = "<>" then "NE"
  else if op = "<" then "LT"
  else if op = ">" then "GT"
  else if op = "<=" then "LE"
  else if op = ">=" then "GE"
  else if op = "and" then "AND"
  else if op = "or" then "OR"
  else op.toUpper

mutual

/-- TACGenerator.generate and its generate_* helpers, fused exactly as
the Python dispatch fuses them.  The first component is the operand
name an expression node returns; for statement nodes Python returns
the code buffer itself, a value no caller ever uses as an operand, so
we return the empty string there. -/
def generate : Node → GenState → String × GenState
  | Node.programN name _decls stmts, s =>
      let s1 := emit ("PROGRAM " ++ name) s
      let s2 := generateList stmts s1
      ("", emit "END" s2)
  | Node.assignmentN target e, s =>
      let r := generate e s
      (target, emit (target ++ " := " ++ r.1) r.2)
  | Node.binOpN l op r, s =>
      let rl := generate l s
      let rr := generate r rl.2
      let rt := new_temp rr.2
      (rt.1, emit (rt.1 ++ " := " ++ rl.1 ++ " " ++ op_map op ++ " " ++ rr.1) rt.2)
  | Node.unaryOpN op e, s =>
      let re := generate e s
      let rt := new_temp re.2
      if op = "not" then
        (rt.1, emit (rt.1 ++ " := NOT " ++ re.1) rt.2)
      else
        (rt.1, emit (rt.1 ++ " := " ++ op ++ " " ++ re.1) rt.2)
  | Node.varN name, s => (name, s)
  | Node.numN v, s =>
      let rt := new_temp s
      (rt.1, emit (rt.1 ++ " := " ++ v.render) rt.2)
  | Node.booleanN b, s =>
      let rt := new_temp s
      (rt.1, emit (rt.1 ++ " := " ++ (if b then "1" else "0")) rt.2)
  | Node.ifN cond thenB elseB, s =>
      let rc := generate cond s
      let fl := new_label rc.2
      let el := new_label fl.2
      let s1 := emit ("IF_FALSE " ++ rc.1 ++ " GOTO " ++ fl.1) el.2
      let s2 := generateList thenB s1
      if elseB.isEmpty then
        ("", emit ("LABEL " ++ fl.1) s2)
      else
        let s3 := emit ("LABEL " ++ fl.1) (emit ("GOTO " ++ el.1) s2)
        let s4 := generateList elseB s3
        ("", emit ("LABEL " ++ el.1) s4)
  | Node.whileN cond body, s =>
      let sl := new_label s
      let el := new_label sl.2
      let s1 := emit ("LABEL " ++ sl.1) el.2
      let rc := generate cond s1
      let s2 := emit ("IF_FALSE " ++ rc.1 ++ " GOTO " ++ el.1) rc.2
      let s3 := generateList body s2
      ("", emit ("LABEL " ++ el.1) (emit ("GOTO " ++ sl.1) s3))
  | Node.readN name, s => ("", emit ("READ " ++ name) s)
  | Node.writeN e, s =>
      let r := generate e s
      ("", emit ("WRITE " ++ r.1) r.2)

/-- The statement loops (for stmt in ...: self.generate(stmt)). -/
def generateList : List Node → GenState → GenState
  | [], s => s
  | n :: ns, s => generateList ns (generate n s).2

end

/-- A fresh generation run: TACGenerator() construction zeroes both
counters and empties the buffer, then generate(ast) is called
(compiler.py always constructs a fresh TACGenerator before generating). -/
def runTACGen (ast : Node) : List String :=
  (generate ast { temp_count := 0, label_count := 0, code := [] }).2.code

/-! ## Semantic analyzer (semantic.py) -/

/-- TypeChecker.check_binary_operation.  The operator-class lists are
inlined as in the source; a raise becomes an Except.error whose message
is the source f-string (quote characters dropped). -/
def check_binary_operation (left_type op right_type : String) : Except String String :=
  if op ∈ (["+", "-", "*", "/"] : List String) then
    if left_type ∈ (["integer", "real"] : List String)
        ∧ right_type ∈ (["integer", "real"] : List String) then
      Except.ok (if "real" ∈ [left_type, right_type] then "real" else "integer")
    else
      Except.error ("Type error: Incompatible types " ++ left_type ++ " and "
        ++ right_type ++ " for operator " ++ op)
  else if op ∈ (["=", "<>", "<", ">", "<=", ">="] : List String) then
    if left_type = right_type
        ∨ (left_type ∈ (["integer", "real"] : List String)
            ∧ right_type ∈ (["integer", "real"] : List String)) then
      Except.ok "boolean"
    else
      Except.error ("Type error: Incompatible types " ++ left_type ++ " and "
        ++ right_type ++ " for operator " ++ op)
  else if op ∈ (["and", "or"] : List String) then
    if left_type = "boolean" ∧ right_type = "boolean" then
      Except.ok "boolean"
    else
      Except.error ("Type error: Incompatible types " ++ left_type ++ " and "
        ++ right_type ++ " for operator " ++ op)
  else
    Except.error ("Type error: Incompatible types " ++ left_type ++ " and "
      ++ right_type ++ " for operator " ++ op)

/-- TypeChecker.check_unary_operation -/
def check_unary_operation (op expr_type : String) : Except String String :=
  if op = "not" ∧ expr_type = "boolean" then
    Except.ok "boolean"
  else
    Except.error ("Type error: Operator " ++ op ++ " cannot be applied to type " ++ expr_type)

/-- The analyzer symbol table: a Python dict from identifier to declared
type name, modelled as an association list where the newest binding
shadows older ones (List.lookup finds the first, i.e. latest, entry). -/
abbrev SymTab := List (String × String)

/-- SemanticAnalyzer.analyze_declaration: each identifier is bound to
the declared type with plain dict assignment — an existing binding is
silently overwritten, no duplicate check. -/
def analyze_declaration (d : DeclarationNode) (t : SymTab) : SymTab :=
  d.identifiers.foldl (fun acc nm => (nm, d.type_node.type_name) :: acc) t

/-- SemanticAnalyzer.analyze_num: integer when isinstance(value, int),
real otherwise. -/
def analyze_num (v : NumVal) : String :=
  match v with
  | NumVal.I _ => "integer"
  | NumVal.R _ _ => "real"

mutual

/-- SemanticAnalyzer.analyze with its analyze_* helpers fused exactly
as the Python isinstance dispatch fuses them; returns the computed type
for expression nodes and none for statement nodes (Python returns None
there).  Where Python would interpolate a None type into a message, the
string None is used, as str formatting does. -/
def analyze : Node → SymTab → Except String (Option String)
  | Node.programN _name decls stmts, tbl =>
      let tbl2 := decls.foldl (fun acc d => analyze_declaration d acc) tbl
      do
        let _ ← analyzeList stmts tbl2
        pure none
  | Node.assignmentN v e, tbl =>
      match List.lookup v tbl with
      | none => Except.error ("Semantic error: Variable " ++ v ++ " not declared")
      | some var_type => do
          let et ← analyze e tbl
          let expr_type := et.getD "None"
          if var_type ≠ expr_type
              ∧ ¬ (var_type ∈ (["integer", "real"] : List String)
                    ∧ expr_type ∈ (["integer", "real"] : List String)) then
            Except.error ("Type error: Cannot assign " ++ expr_type ++ " to "
              ++ var_type ++ " variable " ++ v)
          else
            pure none
  | Node.binOpN l op r, tbl => do
      let lt ← analyze l tbl
      let rt ← analyze r tbl
      let res ← check_binary_operation (lt.getD "None") op (rt.getD "None")
      pure (some res)
  | Node.unaryOpN op e, tbl => do
      let et ← analyze e tbl
      let res ← check_unary_operation op (et.getD "None")
      pure (some res)
  | Node.ifN cond thenB elseB, tbl => do
      let ct ← analyze cond tbl
      if ct.getD "None" ≠ "boolean" then
        Except.error ("Type error: If condition must be boolean, got " ++ ct.getD "None")
      else do
        let _ ← analyzeList thenB tbl
        let _ ← analyzeList elseB tbl
        pure none
  | Node.whileN cond body, tbl => do
      let ct ← analyze cond tbl
      if ct.getD "None" ≠ "boolean" then
        Except.error ("Type error: While condition must be boolean, got " ++ ct.getD "None")
      else do
        let _ ← analyzeList body tbl
        pure none
  | Node.readN v, tbl =>
      match List.lookup v tbl with
      | none => Except.error ("Semantic error: Variable " ++ v ++ " not declared")
      | some t => pure (some t)
  | Node.writeN e, tbl => do
      let _ ← analyze e tbl
      pure none
  | Node.varN v, tbl =>
      match List.lookup v tbl with
      | none => Except.error ("Semantic error: Variable " ++ v ++ " not declared")
      | some t => pure (some t)
  | Node.numN v, _tbl => pure (some (analyze_num v))
  | Node.booleanN _, _tbl => pure (some "boolean")

/-- The statement loops of analyze_program, analyze_if, analyze_while
(the _iter_statements shim applied to the lists the parser produces). -/
def analyzeList : List Node → SymTab → Except String Unit
  | [], _ => pure ()
  | n :: ns, tbl => do
      let _ ← analyze n tbl
      analyzeList ns tbl

end

/-- A fresh analyzer run: SemanticAnalyzer() starts from an empty
symbol table. -/
def runAnalyze (ast : Node) : Except String (Option String) :=
  analyze ast []

/-! ## Lexer (lexer.py)

Characters are modelled as ASCII (Python str predicates restricted to
the character set the language uses).  The cursor state is the list of
characters not yet consumed plus the current line and column. -/

/-- Token values: lexeme text for identifiers, keywords and operators,
a numeric value for NUMBER, and None for EOF. -/
inductive TokenValue where
  | strV : String → TokenValue
  | numV : NumVal → TokenValue
  | noneV : TokenValue
deriving DecidableEq, Repr

/-- lexer.Token (the type tag is the TokenType string constant). -/
structure Token where
  type : String
  value : TokenValue
  line : Nat
  column : Nat
deriving DecidableEq, Repr

/-- The Lexer cursor: remaining input, current line and column. -/
structure LexState where
  rest : List Char
  line : Nat
  column : Nat
deriving DecidableEq, Repr

/-- Lexer.advance.  On empty input Python only moves the dead cursor
position, which nothing observes; we model that as the identity. -/
def advance (s : LexState) : LexState :=
  match s.rest with
  | [] => s
  | c :: cs =>
      if c = '\n' then { rest := cs, line := s.line + 1, column := 1 }
      else { rest := cs, line := s.line, column := s.column + 1 }

/-- Lexer.skip_whitespace, recursing structurally on the character
list (advance on a nonempty cursor always leaves exactly its tail,
whichever branch of the newline test runs). -/
def skip_whitespaceAux : List Char → Nat → Nat → LexState
  | [], l, co => ⟨[], l, co⟩
  | c :: cs, l, co =>
      if c.isWhitespace then
        let s2 := advance ⟨c :: cs, l, co⟩
        skip_whitespaceAux cs s2.line s2.column
      else ⟨c :: cs, l, co⟩

def skip_whitespace (s : LexState) : LexState :=
  skip_whitespaceAux s.rest s.line s.column

/-- Lexer.skip_comment: consume up to and including the newline (the
trailing advance on exhausted input is the identity). -/
def skip_commentAux : List Char → Nat → Nat → LexState
  | [], l, co => ⟨[], l, co⟩
  | c :: cs, l, co =>
      if c = '\n' then advance ⟨c :: cs, l, co⟩
      else
        let s2 := advance ⟨c :: cs, l, co⟩
        skip_commentAux cs s2.line s2.column

def skip_comment (s : LexState) : LexState :=
  skip_commentAux s.rest s.line s.column

/-- Python int() on a digit string. -/
def digitsToNat (ds : List Char) : Nat :=
  ds.foldl (fun acc c => acc * 10 + (c.toNat - 48)) 0

/-- The digit-consuming while loops of Lexer.number: returns the
consumed digit characters and the rest of the cursor. -/
def lexDigitsAux : List Char → Nat → Nat → List Char × LexState
  | [], l, co => ([], ⟨[], l, co⟩)
  | c :: cs, l, co =>
      if c.isDigit then
        let s2 := advance ⟨c :: cs, l, co⟩
        let r := lexDigitsAux cs s2.line s2.column
        (c :: r.1, r.2)
      else ([], ⟨c :: cs, l, co⟩)

def lexDigits (s : LexState) : List Char × LexState :=
  lexDigitsAux s.rest s.line s.column

/-- Lexer.number: a digit run, then, whenever the very next character
is a dot, the dot is consumed unconditionally and a float is produced
from the digits read so far plus any digits after the dot. -/
def lexNumber (s : LexState) : Token × LexState :=
  let r1 := lexDigits s
  match r1.2.rest with
  | '.' :: _ =>
      let s2 := advance r1.2
      let r2 := lexDigits s2
      (⟨"NUMBER", TokenValue.numV (NumVal.R (digitsToNat r1.1) (r2.1.map (fun c => c.toNat - 48))),
        r2.2.line, r2.2.column⟩, r2.2)
  | _ =>
      (⟨"NUMBER", TokenValue.numV (NumVal.I (digitsToNat r1.1)), r1.2.line, r1.2.column⟩, r1.2)

/-- The identifier-consuming while loop of Lexer.identifier. -/
def lexIdentCharsAux : List Char → Nat → Nat → List Char × LexState
  | [], l, co => ([], ⟨[], l, co⟩)
  | c :: cs, l, co =>
      if c.isAlphanum ∨ c = '_' then
        let s2 := advance ⟨c :: cs, l, co⟩
        let r := lexIdentCharsAux cs s2.line s2.column
        (c :: r.1, r.2)
      else ([], ⟨c :: cs, l, co⟩)

def lexIdentChars (s : LexState) : List Char × LexState :=
  lexIdentCharsAux s.rest s.line s.column

/-- The keywords dict of Lexer.__init__ (case-insensitive lookup is
done by the caller lowercasing first). -/
def keyword_type (w : String) : Option String :=
  if w = "program" then some "PROGRAM"
  else if w = "var" then some "VAR"
  else if w = "begin" then some "BEGIN"
  else if w = "end" then some "END"
  else if w = "if" then some "IF"
  else if w = "then" then some "THEN"
  else if w = "else" then some "ELSE"
  else if w = "while" then some "WHILE"
  else if w = "do" then some "DO"
  else if w = "read" then some "READ"
  else if w = "write" then some "WRITE"
  else if w = "integer" then some "INTEGER"
  else if w = "real" then some "REAL"
  else if w = "boolean" then some "BOOLEAN"
  else if w = "and" then some "AND"
  else if w = "or" then some "OR"
  else if w = "not" then some "NOT"
  else if w = "true" then some "BOOLEAN_LIT"
  else if w = "false" then some "BOOLEAN_LIT"
  else none

/-- Lexer.identifier: the token keeps the original-case text; keyword
lookup is on the lowercased text with ID as the dict.get default. -/
def lexIdentifier (s : LexState) : Token × LexState :=
  let r := lexIdentChars s
  let text := String.mk r.1
  (⟨(keyword_type (strLower text)).getD "ID", TokenValue.strV text, r.2.line, r.2.column⟩, r.2)

/-- Lexer.get_next_token.  The skipping loop is driven by fuel; one
unit is spent per whitespace or comment skip, so input length plus one
is always enough.  Running out of fuel is a modelling artifact reported
as an error no real run reaches. -/
def get_next_token : Nat → LexState → Except String (Token × LexState)
  | 0, _ => Except.error "lexer fuel exhausted"
  | fuel + 1, s =>
      match s.rest with
      | [] => Except.ok (⟨"EOF", TokenValue.noneV, s.line, s.column⟩, s)
      | c :: _ =>
          if c.isWhitespace then get_next_token fuel (skip_whitespace s)
          else if c = '\x7b' then get_next_token fuel (skip_comment s)
          else if c.isAlpha ∨ c = '_' then Except.ok (lexIdentifier s)
          else if c.isDigit then Except.ok (lexNumber s)
          else if c = ':' then
            let s1 := advance s
            match s1.rest with
            | '=' :: _ =>
                let s2 := advance s1
                Except.ok (⟨"ASSIGN", TokenValue.strV ":=", s2.line, s2.column⟩, s2)
            | _ => Except.ok (⟨"COLON", TokenValue.strV ":", s1.line, s1.column⟩, s1)
          else if c = '<' then
            let s1 := advance s
            match s1.rest with
            | '=' :: _ =>
                let s2 := advance s1
                Except.ok (⟨"LTE", TokenValue.strV "<=", s2.line, s2.column⟩, s2)
            | '>' :: _ =>
                let s2 := advance s1
                Except.ok (⟨"NEQ", TokenValue.strV "<>", s2.line, s2.column⟩, s2)
            | _ => Except.ok (⟨"LT", TokenValue.strV "<", s1.line, s1.column⟩, s1)
          else if c = '>' then
            let s1 := advance s
            match s1.rest with
            | '=' :: _ =>
                let s2 := advance s1
                Except.ok (⟨"GTE", TokenValue.strV ">=", s2.line, s2.column⟩, s2)
            | _ => Except.ok (⟨"GT", TokenValue.strV ">", s1.line, s1.column⟩, s1)
          else
            match singleCharType c with
            | some tt =>
                let s1 := advance s
                Except.ok (⟨tt, TokenValue.strV (String.mk [c]), s1.line, s1.column⟩, s1)
            | none =>
                Except.error ("Lexical error at line " ++ toString s.line ++ ", column "
                  ++ toString s.column ++ ": Unexpected character: " ++ String.mk [c])
where
  /-- The token_types dict of single-character tokens. -/
  singleCharType (c : Char) : Option String :=
    if c = '+' then some "PLUS"
    else if c = '-' then some "MINUS"
    else if c = '*' then some "MULT"
    else if c = '/' then some "DIV"
    else if c = '=' then some "EQ"
    else if c = '(' then some "LPAREN"
    else if c = ')' then some "RPAREN"
    else if c = ';' then some "SEMI"
    else if c = ',' then some "COMMA"
    else if c = '.' then some "DOT"
    else none

/-- The token-collecting loop of compiler.py stage 1: pull tokens until
EOF (the terminal lexer state), keeping the EOF token. -/
def tokenize_loop : Nat → LexState → Except String (List Token)
  | 0, _ => Except.error "lexer fuel exhausted"
  | fuel + 1, s => do
      let r ← get_next_token (s.rest.length + 1) s
      if r.1.type = "EOF" then pure [r.1]
      else do
        let ts ← tokenize_loop fuel r.2
        pure (r.1 :: ts)

/-- Lexer(text) then pulling every token: line and column start at 1. -/
def tokenizeSource (src : String) : Except String (List Token) :=
  tokenize_loop (src.length + 1) ⟨src.data, 1, 1⟩

/-! ## Parser (parser.py)

The Python parser pulls tokens lazily from the lexer; here the token
stream is produced first and the parser walks the list, which yields
the same results for every program whose parse consumes tokens up to
its first error.  Recursion in the recursive-descent functions is
driven by one shared fuel argument; every real parse gets enough fuel.  -/

/-- A parser.SymbolTable entry: declared type, initialized flag and the
line recorded at declaration. -/
structure SymEntry where
  type_name : String
  initialized : Bool
  line_declared : Nat
deriving DecidableEq, Repr

/-- parser.SymbolTable.  current_token_line models the current_token
reference the Parser attaches at construction: it is assigned once,
from the first token of the stream, and never rebound afterwards. -/
structure PSymbolTable where
  symbols : List (String × SymEntry)
  current_token_line : Nat
deriving DecidableEq, Repr

/-- SymbolTable.is_declared -/
def st_is_declared (name : String) (t : PSymbolTable) : Bool :=
  (t.symbols.lookup name).isSome

/-- SymbolTable.declare: duplicate declaration is a hard error naming
the identifier (message quote characters dropped). -/
def st_declare (name ty : String) (t : PSymbolTable) : Except String PSymbolTable :=
  if st_is_declared name t then
    Except.error ("Semantic error: Variable " ++ name ++ " already declared at line "
      ++ toString t.current_token_line)
  else
    Except.ok { t with
      symbols := t.symbols ++ [(name, ⟨ty, false, t.current_token_line⟩)] }

/-- SymbolTable.set_initialized -/
def st_set_initialized (name : String) (t : PSymbolTable) : PSymbolTable :=
  { t with symbols :=
      t.symbols.map (fun p => if p.1 = name then (p.1, { p.2 with initialized := true }) else p) }

/-- Parser state: the unconsumed token stream and the symbol table. -/
structure PState where
  toks : List Token
  tbl : PSymbolTable
deriving DecidableEq, Repr

/-- self.current_token.  tokenizeSource always ends the stream with an
EOF token and the parser never advances past it, so the default is
unreachable on real streams. -/
def curTok (st : PState) : Token :=
  st.toks.headD ⟨"EOF", TokenValue.noneV, 0, 0⟩

/-- Advancing to the next token (the lexer keeps answering EOF once
exhausted). -/
def advTok (st : PState) : PState :=
  { st with toks := st.toks.tail }

/-- The text payload of a token, as Python reads token.value for
identifiers, keywords and operators. -/
def tokText (t : Token) : String :=
  match t.value with
  | TokenValue.strV s => s
  | TokenValue.numV v => v.render
  | TokenValue.noneV => "None"

/-- str(Token), used in Parser.error context (quote characters
dropped). -/
def tokenStr (t : Token) : String :=
  "Token(" ++ t.type ++ ", " ++ tokText t ++ ", line=" ++ toString t.line
    ++ ", col=" ++ toString t.column ++ ")"

/-- Parser.error: syntax error with the current line context. -/
def perror (st : PState) (message : String) : String :=
  "Syntax error at line " ++ toString (curTok st).line ++ ": " ++ message
    ++ "\nCurrent token: " ++ tokenStr (curTok st)

/-- Parser.eat -/
def eat (tt : String) (st : PState) : Except String PState :=
  if (curTok st).type = tt then Except.ok (advTok st)
  else
    Except.error (perror st ("Expected " ++ tt ++ ", but found " ++ (curTok st).type
      ++ " at line " ++ toString (curTok st).line))

/-- Parser.expect_in -/
def expect_in (types : List String) (context : String) (st : PState) : Except String Unit :=
  if (curTok st).type ∈ types then Except.ok ()
  else
    Except.error (perror st ("Expected one of [" ++ String.intercalate ", " types ++ "]"
      ++ (if context = "" then "" else " in " ++ context)))

/-- Parser.type: after expect_in only the three type keywords remain,
so the boolean arm is the residual case of the if/elif chain. -/
def p_type (st : PState) : Except String (TypeNode × PState) := do
  let _ ← expect_in ["INTEGER", "REAL", "BOOLEAN"] "type specification" st
  if (curTok st).type = "INTEGER" then do
    let st ← eat "INTEGER" st
    Except.ok (⟨"integer"⟩, st)
  else if (curTok st).type = "REAL" then do
    let st ← eat "REAL" st
    Except.ok (⟨"real"⟩, st)
  else do
    let st ← eat "BOOLEAN" st
    Except.ok (⟨"boolean"⟩, st)

/-- The declaration loop of Parser.declaration: register every
identifier of the id_list in the symbol table. -/
def declareAll : List String → String → PSymbolTable → Except String PSymbolTable
  | [], _, t => Except.ok t
  | n :: ns, ty, t => do
      let t ← st_declare n ty t
      declareAll ns ty t

mutual

/-- Parser.program -/
def p_program : Nat → PState → Except String (Node × PState)
  | 0, _ => Except.error "parser fuel exhausted"
  | fuel + 1, st => do
      let st ← eat "PROGRAM" st
      let program_name := tokText (curTok st)
      let st ← eat "ID" st
      let st ← eat "SEMI" st
      let (decls, st) ← p_declarations fuel st
      let st ← eat "BEGIN" st
      let (stmts, st) ← p_statements fuel ["END", "ELSE"] st
      let st ← eat "END" st
      let st ← eat "DOT" st
      if (curTok st).type ≠ "EOF" then
        Except.error (perror st "Unexpected tokens after program end")
      else
        Except.ok (Node.programN program_name decls stmts, st)

/-- Parser.declarations -/
def p_declarations : Nat → PState → Except String (List DeclarationNode × PState)
  | 0, _ => Except.error "parser fuel exhausted"
  | fuel + 1, st =>
      if (curTok st).type = "VAR" then do
        let st ← eat "VAR" st
        p_declaration_list fuel st
      else
        Except.ok ([], st)

/-- Parser.declaration_list -/
def p_declaration_list : Nat → PState → Except String (List DeclarationNode × PState)
  | 0, _ => Except.error "parser fuel exhausted"
  | fuel + 1, st => do
      let (d, st) ← p_declaration fuel st
      p_declaration_list_rest fuel [d] st

/-- The while loop of Parser.declaration_list: a SEMI continues the
list unless BEGIN follows (trailing semicolon before BEGIN). -/
def p_declaration_list_rest :
    Nat → List DeclarationNode → PState → Except String (List DeclarationNode × PState)
  | 0, _, _ => Except.error "parser fuel exhausted"
  | fuel + 1, acc, st =>
      if (curTok st).type = "SEMI" then do
        let st ← eat "SEMI" st
        if (curTok st).type = "BEGIN" then Except.ok (acc, st)
        else do
          let (d, st) ← p_declaration fuel st
          p_declaration_list_rest fuel (acc ++ [d]) st
      else
        Except.ok (acc, st)

/-- Parser.declaration: id_list COLON type, then every identifier is
declared in the symbol table (duplicates abort the parse). -/
def p_declaration : Nat → PState → Except String (DeclarationNode × PState)
  | 0, _ => Except.error "parser fuel exhausted"
  | fuel + 1, st => do
      let (ids, st) ← p_id_list fuel st
      let st ← eat "COLON" st
      let (tn, st) ← p_type st
      let tbl ← declareAll ids tn.type_name st.tbl
      Except.ok (⟨ids, tn⟩, { st with tbl := tbl })

/-- Parser.id_list -/
def p_id_list : Nat → PState → Except String (List String × PState)
  | 0, _ => Except.error "parser fuel exhausted"
  | fuel + 1, st => do
      let name := tokText (curTok st)
      let st ← eat "ID" st
      p_id_list_rest fuel [name] st

/-- The while loop of Parser.id_list. -/
def p_id_list_rest : Nat → List String → PState → Except String (List String × PState)
  | 0, _, _ => Except.error "parser fuel exhausted"
  | fuel + 1, acc, st =>
      if (curTok st).type = "COMMA" then do
        let st ← eat "COMMA" st
        let name := tokText (curTok st)
        let st ← eat "ID" st
        p_id_list_rest fuel (acc ++ [name]) st
      else
        Except.ok (acc, st)

/-- Parser.statements: stop at a stop token or EOF; a separating SEMI
is consumed when present and a trailing SEMI before a stop token ends
the list; a missing SEMI ends the list only at a stop token. -/
def p_statements : Nat → List String → PState → Except String (List Node × PState)
  | 0, _, _ => Except.error "parser fuel exhausted"
  | fuel + 1, stop, st =>
      if (curTok st).type ∈ stop ++ ["EOF"] then Except.ok ([], st)
      else do
        let (stmt, st) ← p_statement fuel st
        if (curTok st).type = "SEMI" then do
          let st ← eat "SEMI" st
          if (curTok st).type ∈ stop then Except.ok ([stmt], st)
          else do
            let (rest, st) ← p_statements fuel stop st
            Except.ok (stmt :: rest, st)
        else
          if (curTok st).type ∈ stop then Except.ok ([stmt], st)
          else do
            let (rest, st) ← p_statements fuel stop st
            Except.ok (stmt :: rest, st)

/-- Parser.statement: after expect_in only the five statement openers
remain, so the write arm is the residual case of the if/elif chain. -/
def p_statement : Nat → PState → Except String (Node × PState)
  | 0, _ => Except.error "parser fuel exhausted"
  | fuel + 1, st => do
      let _ ← expect_in ["ID", "IF", "WHILE", "READ", "WRITE"] "statement" st
      if (curTok st).type = "ID" then p_assignment fuel st
      else if (curTok st).type = "IF" then p_if_stmt fuel st
      else if (curTok st).type = "WHILE" then p_while_stmt fuel st
      else if (curTok st).type = "READ" then p_read_stmt fuel st
      else p_write_stmt fuel st

/-- Parser.assignment: the declaredness check runs after the expression
is parsed; assignment marks the target initialized. -/
def p_assignment : Nat → PState → Except String (Node × PState)
  | 0, _ => Except.error "parser fuel exhausted"
  | fuel + 1, st => do
      let var_name := tokText (curTok st)
      let line := (curTok st).line
      let st ← eat "ID" st
      let st ← eat "ASSIGN" st
      let (expr, st) ← p_expression fuel st
      if ¬ st_is_declared var_name st.tbl then
        Except.error ("Semantic error at line " ++ toString line ++ ": Variable "
          ++ var_name ++ " not declared")
      else
        Except.ok (Node.assignmentN var_name expr,
          { st with tbl := st_set_initialized var_name st.tbl })

/-- Parser.expression with expression_rest folded in (one optional
relational operator). -/
def p_expression : Nat → PState → Except String (Node × PState)
  | 0, _ => Except.error "parser fuel exhausted"
  | fuel + 1, st => do
      let (left, st) ← p_simple_expr fuel st
      if (curTok st).type ∈ ["EQ", "NEQ", "LT", "GT", "LTE", "GTE"] then do
        let op := tokText (curTok st)
        let st ← eat (curTok st).type st
        let (right, st) ← p_simple_expr fuel st
        Except.ok (Node.binOpN left op right, st)
      else
        Except.ok (left, st)

/-- Parser.simple_expr -/
def p_simple_expr : Nat → PState → Except String (Node × PState)
  | 0, _ => Except.error "parser fuel exhausted"
  | fuel + 1, st => do
      let (left, st) ← p_term fuel st
      p_simple_expr_rest fuel left st

/-- Parser.simple_expr_rest: the additive-operator while loop. -/
def p_simple_expr_rest : Nat → Node → PState → Except String (Node × PState)
  | 0, _, _ => Except.error "parser fuel exhausted"
  | fuel + 1, left, st =>
      if (curTok st).type ∈ ["PLUS", "MINUS", "OR"] then do
        let op := tokText (curTok st)
        let st ← eat (curTok st).type st
        let (right, st) ← p_term fuel st
        p_simple_expr_rest fuel (Node.binOpN left op right) st
      else
        Except.ok (left, st)

/-- Parser.term -/
def p_term : Nat → PState → Except String (Node × PState)
  | 0, _ => Except.error "parser fuel exhausted"
  | fuel + 1, st => do
      let (left, st) ← p_factor fuel st
      p_term_rest fuel left st

/-- Parser.term_rest: the multiplicative-operator while loop. -/
def p_term_rest : Nat → Node → PState → Except String (Node × PState)
  | 0, _, _ => Except.error "parser fuel exhausted"
  | fuel + 1, left, st =>
      if (curTok st).type ∈ ["MULT", "DIV", "AND"] then do
        let op := tokText (curTok st)
        let st ← eat (curTok st).type st
        let (right, st) ← p_factor fuel st
        p_term_rest fuel (Node.binOpN left op right) st
      else
        Except.ok (left, st)

/-- Parser.factor.  A variable reference must already be declared or
the parse aborts naming the identifier; only NUMBER tokens reach the
number arm, so the numeric payload is total there. -/
def p_factor : Nat → PState → Except String (Node × PState)
  | 0, _ => Except.error "parser fuel exhausted"
  | fuel + 1, st =>
      if (curTok st).type = "ID" then
        let var_name := tokText (curTok st)
        if ¬ st_is_declared var_name st.tbl then
          Except.error ("Semantic error at line " ++ toString (curTok st).line
            ++ ": Variable " ++ var_name ++ " not declared")
        else do
          let st ← eat "ID" st
          Except.ok (Node.varN var_name, st)
      else if (curTok st).type = "NUMBER" then do
        let v := match (curTok st).value with
          | TokenValue.numV v => v
          | _ => NumVal.I 0
        let st ← eat "NUMBER" st
        Except.ok (Node.numN v, st)
      else if (curTok st).type = "LPAREN" then do
        let st ← eat "LPAREN" st
        let (node, st) ← p_expression fuel st
        let st ← eat "RPAREN" st
        Except.ok (node, st)
      else if (curTok st).type = "NOT" then do
        let op := tokText (curTok st)
        let st ← eat "NOT" st
        let (node, st) ← p_factor fuel st
        Except.ok (Node.unaryOpN op node, st)
      else if (curTok st).type = "BOOLEAN_LIT" then do
        let value := strLower (tokText (curTok st)) = "true"
        let st ← eat "BOOLEAN_LIT" st
        Except.ok (Node.booleanN value, st)
      else
        Except.error (perror st ("Expected factor (identifier, number, or expression), "
          ++ "but found " ++ (curTok st).type))

/-- Parser.block -/
def p_block : Nat → PState → Except String (List Node × PState)
  | 0, _ => Except.error "parser fuel exhausted"
  | fuel + 1, st => do
      let st ← eat "BEGIN" st
      let (stmts, st) ← p_statements fuel ["END"] st
      let st ← eat "END" st
      Except.ok (stmts, st)

/-- Parser.if_stmt: branches normalize to statement lists; a missing
else-branch is the empty list. -/
def p_if_stmt : Nat → PState → Except String (Node × PState)
  | 0, _ => Except.error "parser fuel exhausted"
  | fuel + 1, st => do
      let st ← eat "IF" st
      let (condition, st) ← p_expression fuel st
      let st ← eat "THEN" st
      let (then_branch, st) ←
        if (curTok st).type = "BEGIN" then p_block fuel st
        else do
          let (s1, st) ← p_statement fuel st
          Except.ok ([s1], st)
      if (curTok st).type = "ELSE" then do
        let st ← eat "ELSE" st
        let (else_branch, st) ←
          if (curTok st).type = "BEGIN" then p_block fuel st
          else do
            let (s1, st) ← p_statement fuel st
            Except.ok ([s1], st)
        Except.ok (Node.ifN condition then_branch else_branch, st)
      else
        Except.ok (Node.ifN condition then_branch [], st)

/-- Parser.while_stmt -/
def p_while_stmt : Nat → PState → Except String (Node × PState)
  | 0, _ => Except.error "parser fuel exhausted"
  | fuel + 1, st => do
      let st ← eat "WHILE" st
      let (condition, st) ← p_expression fuel st
      let st ← eat "DO" st
      let (body, st) ←
        if (curTok st).type = "BEGIN" then p_block fuel st
        else do
          let (s1, st) ← p_statement fuel st
          Except.ok ([s1], st)
      Except.ok (Node.whileN condition body, st)

/-- Parser.read_stmt: the target must be declared; read marks it
initialized. -/
def p_read_stmt : Nat → PState → Except String (Node × PState)
  | 0, _ => Except.error "parser fuel exhausted"
  | _fuel + 1, st => do
      let st ← eat "READ" st
      let st ← eat "LPAREN" st
      let var_name := tokText (curTok st)
      let line := (curTok st).line
      let st ← eat "ID" st
      let st ← eat "RPAREN" st
      if ¬ st_is_declared var_name st.tbl then
        Except.error ("Semantic error at line " ++ toString line ++ ": Variable "
          ++ var_name ++ " not declared")
      else
        Except.ok (Node.readN var_name,
          { st with tbl := st_set_initialized var_name st.tbl })

/-- Parser.write_stmt -/
def p_write_stmt : Nat → PState → Except String (Node × PState)
  | 0, _ => Except.error "parser fuel exhausted"
  | fuel + 1, st => do
      let st ← eat "WRITE" st
      let st ← eat "LPAREN" st
      let (expr, st) ← p_expression fuel st
      let st ← eat "RPAREN" st
      Except.ok (Node.writeN expr, st)

end

/-- Parser construction plus Parser.parse: the symbol table records the
line of the first token as its current_token reference, program() runs with
ample fuel and any failure is rewrapped with the Parsing failed prefix. -/
def parse (toks : List Token) : Except String Node :=
  let st : PState :=
    { toks := toks,
      tbl := { symbols := [], current_token_line := (curTok ⟨toks, ⟨[], 0⟩⟩).line } }
  match p_program (10 * (toks.length + 1)) st with
  | Except.ok (ast, _) => Except.ok ast
  | Except.error e => Except.error ("Parsing failed: " ++ e)

/-- Lexer(source) then Parser(lexer).parse(). -/
def parseSource (src : String) : Except String Node := do
  let toks ← tokenizeSource src
  parse toks

/-- compiler.Compiler.compile: lexical analysis, then a fresh lexer and
parser for syntax analysis, then semantic analysis, then a fresh TAC
generator; the first failing stage aborts the pipeline and later stages
never run. -/
def compileSource (src : String) : Except String (List String) := do
  let _tokens ← tokenizeSource src
  let ast ← parseSource src
  let _ ← runAnalyze ast
  Except.ok (runTACGen ast)

mutual

/-- Frame property of the generator: the instruction buffer is
append-only and the emitted delta, the operand result and the final
counters depend only on the node and the two counters, never on the
instructions already in the buffer. -/
theorem gen_split : ∀ (n : Node) (tc lc : Nat),
    ∃ (a : String) (T L : Nat) (d : List String), ∀ c : List String,
      generate n ⟨tc, lc, c⟩ = (a, ⟨T, L, c ++ d⟩)
  | Node.programN name _decls stmts, tc, lc => by
      obtain ⟨T, L, d, h⟩ := genList_split stmts tc lc
      exact ⟨"", T, L, ["PROGRAM " ++ name] ++ d ++ ["END"], fun c => by
        simp [generate, emit, h]⟩
  | Node.assignmentN target e, tc, lc => by
      obtain ⟨a, T, L, d, h⟩ := gen_split e tc lc
      exact ⟨target, T, L, d ++ [target ++ " := " ++ a], fun c => by
        simp [generate, emit, h]⟩
  | Node.binOpN l op r, tc, lc => by
      obtain ⟨a, T1, L1, d1, h1⟩ := gen_split l tc lc
      obtain ⟨b, T2, L2, d2, h2⟩ := gen_split r T1 L1
      exact ⟨"t" ++ toString T2, T2 + 1, L2,
        d1 ++ d2 ++ ["t" ++ toString T2 ++ " := " ++ a ++ " " ++ op_map op ++ " " ++ b],
        fun c => by simp [generate, emit, new_temp, h1, h2]⟩
  | Node.unaryOpN op e, tc, lc => by
      obtain ⟨a, T, L, d, h⟩ := gen_split e tc lc
      by_cases hop : op = "not"
      · exact ⟨"t" ++ toString T, T + 1, L, d ++ ["t" ++ toString T ++ " := NOT " ++ a],
          fun c => by simp [generate, emit, new_temp, h, hop]⟩
      · exact ⟨"t" ++ toString T, T + 1, L, d ++ ["t" ++ toString T ++ " := " ++ op ++ " " ++ a],
          fun c => by simp [generate, emit, new_temp, h, hop]⟩
  | Node.varN name, tc, lc =>
      ⟨name, tc, lc, [], fun c => by simp [generate]⟩
  | Node.numN v, tc, lc =>
      ⟨"t" ++ toString tc, tc + 1, lc, ["t" ++ toString tc ++ " := " ++ v.render],
        fun c => by simp [generate, emit, new_temp]⟩
  | Node.booleanN b, tc, lc =>
      ⟨"t" ++ toString tc, tc + 1, lc,
        ["t" ++ toString tc ++ " := " ++ (if b then "1" else "0")],
        fun c => by simp [generate, emit, new_temp]⟩
  | Node.ifN cond thenB elseB, tc, lc => by
      obtain ⟨a, T1, L1, d1, h1⟩ := gen_split cond tc lc
      obtain ⟨T2, L2, d2, h2⟩ := genList_split thenB T1 (L1 + 1 + 1)
      by_cases he : elseB.isEmpty
      · exact ⟨"", T2, L2,
          d1 ++ ["IF_FALSE " ++ a ++ " GOTO " ++ ("L" ++ toString L1)] ++ d2
            ++ ["LABEL " ++ ("L" ++ toString L1)],
          fun c => by simp [generate, emit, new_label, h1, h2, he]⟩
      · obtain ⟨T3, L3, d3, h3⟩ := genList_split elseB T2 L2
        exact ⟨"", T3, L3,
          d1 ++ ["IF_FALSE " ++ a ++ " GOTO " ++ ("L" ++ toString L1)] ++ d2
            ++ ["GOTO " ++ ("L" ++ toString (L1 + 1)), "LABEL " ++ ("L" ++ toString L1)]
            ++ d3 ++ ["LABEL " ++ ("L" ++ toString (L1 + 1))],
          fun c => by simp [generate, emit, new_label, h1, h2, h3, he]⟩
  | Node.whileN cond body, tc, lc => by
      obtain ⟨a, T1, L1, d1, h1⟩ := gen_split cond tc (lc + 1 + 1)
      obtain ⟨T2, L2, d2, h2⟩ := genList_split body T1 L1
      exact ⟨"", T2, L2,
        ["LABEL " ++ ("L" ++ toString lc)] ++ d1
          ++ ["IF_FALSE " ++ a ++ " GOTO " ++ ("L" ++ toString (lc + 1))] ++ d2
          ++ ["GOTO " ++ ("L" ++ toString lc), "LABEL " ++ ("L" ++ toString (lc + 1))],
        fun c => by simp [generate, emit, new_label, h1, h2]⟩
  | Node.readN name, tc, lc =>
      ⟨"", tc, lc, ["READ " ++ name], fun c => by simp [generate, emit]⟩
  | Node.writeN e, tc, lc => by
      obtain ⟨a, T, L, d, h⟩ := gen_split e tc lc
      exact ⟨"", T, L, d ++ ["WRITE " ++ a], fun c => by simp [generate, emit, h]⟩

/-- Frame property for statement-list generation. -/
theorem genList_split : ∀ (ns : List Node) (tc lc : Nat),
    ∃ (T L : Nat) (d : List String), ∀ c : List String,
      generateList ns ⟨tc, lc, c⟩ = ⟨T, L, c ++ d⟩
  | [], tc, lc => ⟨tc, lc, [], fun c => by simp [generateList]⟩
  | n :: ns, tc, lc => by
      obtain ⟨a, T, L, d, h⟩ := gen_split n tc lc
      obtain ⟨T2, L2, d2, h2⟩ := genList_split ns T L
      exact ⟨T2, L2, d ++ d2, fun c => by simp [generateList, h, h2]⟩

end

theorem isDigit_ne_newline (c : Char) (h : c.isDigit = true) : c ≠ '\n' := by
  intro he
  subst he
  exact absurd h (by decide)

/-- The digit loop consumes exactly a maximal digit run, leaving the
rest of the input untouched and advancing the column by its length. -/
theorem lexDigitsAux_run : ∀ (ds : List Char), (∀ c ∈ ds, c.isDigit = true) →
    ∀ (rest : List Char), (∀ c, rest.head? = some c → c.isDigit = false) →
    ∀ (l co : Nat),
      lexDigitsAux (ds ++ rest) l co = (ds, ⟨rest, l, co + ds.length⟩)
  | [], _, rest, hr, l, co => by
      cases rest with
      | nil => simp [lexDigitsAux]
      | cons c cs =>
          have hc := hr c rfl
          simp [lexDigitsAux, hc]
  | d :: ds, hds, rest, hr, l, co => by
      have hd : d.isDigit = true := hds d (by simp)
      have hnl : d ≠ '\n' := isDigit_ne_newline d hd
      have ih := lexDigitsAux_run ds (fun c hc => hds c (by simp [hc])) rest hr l (co + 1)
      simp [lexDigitsAux, hd, advance, hnl, ih]
      omega

theorem lexDigits_run (ds : List Char) (hds : ∀ c ∈ ds, c.isDigit = true)
    (rest : List Char) (hr : ∀ c, rest.head? = some c → c.isDigit = false)
    (l co : Nat) :
    lexDigits ⟨ds ++ rest, l, co⟩ = (ds, ⟨rest, l, co + ds.length⟩) :=
  lexDigitsAux_run ds hds rest hr l co

/-- C9: a digit run followed by a dot that is not followed by a digit
still absorbs the dot: the scanner returns a NUMBER token carrying the
real value of the digits and the dot is gone from the remaining input;
concretely the two-character source 5. scans as one real-valued NUMBER
token and an EOF, with no DOT token left for the parser. -/
theorem lexer_absorbs_trailing_dot :
    (∀ (ds rest : List Char) (l co : Nat),
       ds ≠ [] → (∀ c ∈ ds, c.isDigit = true) →
       (∀ c, rest.head? = some c → c.isDigit = false) →
       lexNumber ⟨ds ++ '.' :: rest, l, co⟩ =
         (⟨"NUMBER", TokenValue.numV (NumVal.R (digitsToNat ds) []), l, co + ds.length + 1⟩,
          ⟨rest, l, co + ds.length + 1⟩))
  ∧ tokenizeSource "5." =
      Except.ok [⟨"NUMBER", TokenValue.numV (NumVal.R 5 []), 1, 3⟩,
                 ⟨"EOF", TokenValue.noneV, 1, 3⟩] := by
  constructor
  · intro ds rest l co _hne hds hr
    have h1 := lexDigits_run ds hds ('.' :: rest) (fun c hc => by
      simp at hc
      subst hc
      decide) l co
    have h2 : lexDigits ⟨rest, l, co + ds.length + 1⟩ = ([], ⟨rest, l, co + ds.length + 1⟩) := by
      simpa using lexDigits_run [] (by simp) rest hr l (co + ds.length + 1)
    simp [lexNumber, h1, advance, h2]
  · decide

/-- C9 witness: the general part applied to the digits 5 followed by a
dot at end of input. -/
theorem lexer_absorbs_trailing_dot_witness :
    lexNumber ⟨['5', '.'], 1, 1⟩ =
      (⟨"NUMBER", TokenValue.numV (NumVal.R 5 []), 1, 3⟩, ⟨[], 1, 3⟩) := by
  have h := lexer_absorbs_trailing_dot.1 ['5'] [] 1 1 (by simp) (by decide)
    (fun c hc => by simp at hc)
  simpa using h

/-- C8: a bare digit run scans to an integer-valued NUMBER token and
the analyzer types that literal integer; a digit run with one dot and
a following digit run scans to a real-valued NUMBER token and the
analyzer types it real. -/
theorem lexer_numeral_typing :
    (∀ (ds rest : List Char) (l co : Nat) (tbl : SymTab),
       ds ≠ [] → (∀ c ∈ ds, c.isDigit = true) →
       (∀ c, rest.head? = some c → c.isDigit = false ∧ c ≠ '.') →
       lexNumber ⟨ds ++ rest, l, co⟩ =
         (⟨"NUMBER", TokenValue.numV (NumVal.I (digitsToNat ds)), l, co + ds.length⟩,
          ⟨rest, l, co + ds.length⟩)
       ∧ analyze (Node.numN (NumVal.I (digitsToNat ds))) tbl = Except.ok (some "integer"))
  ∧ (∀ (ds fs rest : List Char) (l co : Nat) (tbl : SymTab),
       ds ≠ [] → fs ≠ [] → (∀ c ∈ ds, c.isDigit = true) → (∀ c ∈ fs, c.isDigit = true) →
       (∀ c, rest.head? = some c → c.isDigit = false) →
       lexNumber ⟨ds ++ '.' :: (fs ++ rest), l, co⟩ =
         (⟨"NUMBER",
           TokenValue.numV (NumVal.R (digitsToNat ds) (fs.map (fun c => c.toNat - 48))),
           l, co + ds.length + 1 + fs.length⟩,
          ⟨rest, l, co + ds.length + 1 + fs.length⟩)
       ∧ analyze (Node.numN (NumVal.R (digitsToNat ds) (fs.map (fun c => c.toNat - 48)))) tbl
           = Except.ok (some "real")) := by
  constructor
  · intro ds rest l co tbl _hne hds hr
    have h1 := lexDigits_run ds hds rest (fun c hc => (hr c hc).1) l co
    refine ⟨?_, by simp [analyze, analyze_num]; rfl⟩
    cases rest with
    | nil =>
        simp only [List.append_nil] at h1
        simp [lexNumber, h1]
    | cons c cs =>
        have hc := hr c rfl
        simp only [lexNumber, h1]
        split
        · rename_i heq
          rw [List.cons.injEq] at heq
          exact absurd heq.1 hc.2
        · rfl
  · intro ds fs rest l co tbl _hne _hfne hds hfs hr
    have h1 := lexDigits_run ds hds ('.' :: (fs ++ rest)) (fun c hc => by
      simp at hc
      subst hc
      decide) l co
    have h2 := lexDigits_run fs hfs rest hr l (co + ds.length + 1)
    refine ⟨?_, by simp [analyze, analyze_num]; rfl⟩
    simp [lexNumber, h1, advance, h2]

/-- C8 witness: the scanner and analyzer on the concrete numerals 42
and 3.14. -/
theorem lexer_numeral_typing_witness :
    (lexNumber ⟨['4', '2', ';'], 1, 1⟩ =
       (⟨"NUMBER", TokenValue.numV (NumVal.I 42), 1, 3⟩, ⟨[';'], 1, 3⟩)
     ∧ analyze (Node.numN (NumVal.I 42)) [] = Except.ok (some "integer"))
  ∧ (lexNumber ⟨['3', '.', '1', '4', ';'], 1, 1⟩ =
       (⟨"NUMBER", TokenValue.numV (NumVal.R 3 [1, 4]), 1, 5⟩, ⟨[';'], 1, 5⟩)
     ∧ analyze (Node.numN (NumVal.R 3 [1, 4])) [] = Except.ok (some "real")) := by
  constructor
  · have h := lexer_numeral_typing.1 ['4', '2'] [';'] 1 1 [] (by simp) (by decide)
      (fun c hc => by simp at hc; subst hc; exact ⟨by decide, by decide⟩)
    simpa using h
  · have h := lexer_numeral_typing.2 ['3'] ['1', '4'] [';'] 1 1 [] (by simp) (by simp)
      (by decide) (by decide)
      (fun c hc => by simp at hc; subst hc; decide)
    simpa using h

/-- C2: for every While node, TAC lowering emits exactly a start-label
definition, the condition instructions (exactly once, neither hoisted
nor duplicated), one IF_FALSE jump to the end label, the body
instructions, an unconditional jump back to the start label, and the
end-label definition, appended to the existing buffer in that order. -/
theorem tac_while_shape (cond : Node) (body : List Node) (s : GenState) :
    (let rc := generate cond ⟨s.temp_count, s.label_count + 1 + 1, []⟩;
     let rb := generateList body ⟨rc.2.temp_count, rc.2.label_count, []⟩;
     generate (Node.whileN cond body) s =
       ("", ⟨rb.temp_count, rb.label_count,
             s.code ++ ["LABEL " ++ ("L" ++ toString s.label_count)]
               ++ rc.2.code
               ++ ["IF_FALSE " ++ rc.1 ++ " GOTO " ++ ("L" ++ toString (s.label_count + 1))]
               ++ rb.code
               ++ ["GOTO " ++ ("L" ++ toString s.label_count),
                   "LABEL " ++ ("L" ++ toString (s.label_count + 1))]⟩)) := by
  obtain ⟨tc, lc, c⟩ := s
  obtain ⟨a, T1, L1, d1, h1⟩ := gen_split cond tc (lc + 1 + 1)
  obtain ⟨T2, L2, d2, h2⟩ := genList_split body T1 L1
  simp [generate, emit, new_label, h1, h2]

/-- C1 (amended): for an If node with an empty else-branch, lowering
emits exactly the condition instructions, one IF_FALSE jump to the
false label, the then-branch instructions and the false-label
definition, with no end label emitted — but an end label is still
allocated: both new_label calls run, so the then-branch is lowered with
the label counter advanced by two past the condition state. -/
theorem tac_if_without_else (cond : Node) (thenB : List Node) (s : GenState) :
    (let rc := generate cond ⟨s.temp_count, s.label_count, []⟩;
     let fl := "L" ++ toString rc.2.label_count;
     let rt := generateList thenB ⟨rc.2.temp_count, rc.2.label_count + 1 + 1, []⟩;
     generate (Node.ifN cond thenB []) s =
       ("", ⟨rt.temp_count, rt.label_count,
             s.code ++ rc.2.code
               ++ ["IF_FALSE " ++ rc.1 ++ " GOTO " ++ fl]
               ++ rt.code ++ ["LABEL " ++ fl]⟩)) := by
  obtain ⟨tc, lc, c⟩ := s
  obtain ⟨a, T1, L1, d1, h1⟩ := gen_split cond tc lc
  obtain ⟨T2, L2, d2, h2⟩ := genList_split thenB T1 (L1 + 1 + 1)
  simp [generate, emit, new_label, h1, h2]

/-- C1 counterexample: on a concrete else-less If the label counter
advances by two, not by one — the unused end label is still allocated
(tac.py allocates end_label before testing for an else-branch). -/
theorem tac_if_label_alloc_cex :
    (generate (Node.ifN (Node.booleanN true) [Node.readN "x"] [])
        ⟨0, 0, []⟩).2.label_count = 2 ∧
    ¬ (generate (Node.ifN (Node.booleanN true) [Node.readN "x"] [])
        ⟨0, 0, []⟩).2.label_count = 1 := by
  constructor <;> decide

/-- C5: under an arithmetic operator, two numeric operand types give
result type real when at least one operand is real and integer when
both are integer; any non-numeric operand makes check_binary_operation
fail with a type-incompatibility message naming both types and the
operator. -/
theorem semantic_arith_result (l r op : String)
    (hop : op ∈ (["+", "-", "*", "/"] : List String)) :
    (l ∈ (["integer", "real"] : List String) →
     r ∈ (["integer", "real"] : List String) →
       check_binary_operation l op r =
         Except.ok (if l = "real" ∨ r = "real" then "real" else "integer"))
  ∧ (¬ (l ∈ (["integer", "real"] : List String)
        ∧ r ∈ (["integer", "real"] : List String)) →
       check_binary_operation l op r =
         Except.error ("Type error: Incompatible types " ++ l ++ " and "
           ++ r ++ " for operator " ++ op)) := by
  constructor
  · intro hl hr
    fin_cases hop <;> fin_cases hl <;> fin_cases hr <;> rfl
  · intro hno
    fin_cases hop <;>
      (simp only [check_binary_operation]
       rw [if_pos (show _ ∈ (["+", "-", "*", "/"] : List String) by decide), if_neg hno])

/-- C5 witness: mixed integer and real addition computes real, and a
boolean operand under + is rejected with the message naming both
operand types and the operator. -/
theorem semantic_arith_result_witness :
    check_binary_operation "integer" "+" "real" = Except.ok "real"
  ∧ check_binary_operation "boolean" "+" "integer" =
      Except.error "Type error: Incompatible types boolean and integer for operator +" := by
  constructor
  · have h := (semantic_arith_result "integer" "real" "+" (by decide)).1
      (by decide) (by decide)
    simpa using h
  · have h := (semantic_arith_result "boolean" "integer" "+" (by decide)).2
      (by decide)
    simpa using h

/-- C3: a second declaration of the same identifier is rejected during
parsing by SymbolTable.declare with an error naming the identifier
(shown universally and on a concrete source program), while the
semantic analyzer never re-checks uniqueness: analyze_declaration
silently overwrites the earlier entry and a program node carrying a
duplicate declaration analyzes without any error. -/
theorem duplicate_declaration_split :
    (∀ (name ty : String) (t : PSymbolTable), st_is_declared name t = true →
       st_declare name ty t =
         Except.error ("Semantic error: Variable " ++ name ++ " already declared at line "
           ++ toString t.current_token_line))
  ∧ (∀ (name t1 t2 : String) (tb : SymTab),
       List.lookup name
           (analyze_declaration ⟨[name], ⟨t2⟩⟩ (analyze_declaration ⟨[name], ⟨t1⟩⟩ tb))
         = some t2)
  ∧ (∀ (pname name t1 t2 : String),
       runAnalyze (Node.programN pname [⟨[name], ⟨t1⟩⟩, ⟨[name], ⟨t2⟩⟩] []) = Except.ok none)
  ∧ parseSource "program p; var x : integer; x : real; begin end." =
      Except.error "Parsing failed: Semantic error: Variable x already declared at line 1" := by
  refine ⟨?_, ?_, ?_, rfl⟩
  · intro name ty t h
    simp [st_declare, h]
  · intro name t1 t2 tb
    simp [analyze_declaration, List.lookup]
  · intro pname name t1 t2
    rfl

/-- C3 witness: declaring x a second time on a table already holding x
fails naming x. -/
theorem duplicate_declaration_split_witness :
    st_declare "x" "real" ⟨[("x", ⟨"integer", false, 1⟩)], 1⟩ =
      Except.error "Semantic error: Variable x already declared at line 1" := by
  have h := duplicate_declaration_split.1 "x" "real"
    ⟨[("x", ⟨"integer", false, 1⟩)], 1⟩ (by decide)
  simpa using h

/-- C4: assignment analysis fails, naming both types and the variable,
exactly when the declared and computed types differ and are not both
numeric; both-numeric cross-assignment (and equal types) succeeds.  On
the concrete boolean-to-integer program the parser alone accepts and
the semantic analyzer rejects. -/
theorem semantic_assignment_rule :
    (∀ (v : String) (e : Node) (tbl : SymTab) (vt et : String),
       List.lookup v tbl = some vt →
       analyze e tbl = Except.ok (some et) →
       ¬ (vt = et ∨ (vt ∈ (["integer", "real"] : List String)
                      ∧ et ∈ (["integer", "real"] : List String))) →
       analyze (Node.assignmentN v e) tbl =
         Except.error ("Type error: Cannot assign " ++ et ++ " to " ++ vt
           ++ " variable " ++ v))
  ∧ (∀ (v : String) (e : Node) (tbl : SymTab) (vt et : String),
       List.lookup v tbl = some vt →
       analyze e tbl = Except.ok (some et) →
       (vt = et ∨ (vt ∈ (["integer", "real"] : List String)
                    ∧ et ∈ (["integer", "real"] : List String))) →
       analyze (Node.assignmentN v e) tbl = Except.ok none)
  ∧ parseSource "program p; var x : integer; begin x := true end." =
      Except.ok (Node.programN "p" [⟨["x"], ⟨"integer"⟩⟩]
        [Node.assignmentN "x" (Node.booleanN true)])
  ∧ runAnalyze (Node.programN "p" [⟨["x"], ⟨"integer"⟩⟩]
        [Node.assignmentN "x" (Node.booleanN true)]) =
      Except.error "Type error: Cannot assign boolean to integer variable x" := by
  refine ⟨?_, ?_, rfl, rfl⟩
  · intro v e tbl vt et hv he h
    rw [not_or] at h
    simp only [analyze, hv, he, Bind.bind, Except.bind, Option.getD]
    rw [if_pos ⟨h.1, h.2⟩]
  · intro v e tbl vt et hv he h
    have hno : ¬ (vt ≠ et ∧ ¬ (vt ∈ (["integer", "real"] : List String)
        ∧ et ∈ (["integer", "real"] : List String))) := by
      rcases h with h | h
      · intro hc
        exact hc.1 h
      · intro hc
        exact hc.2 h
    simp only [analyze, hv, he, Bind.bind, Except.bind, Option.getD]
    rw [if_neg hno]
    rfl

/-- C4 witness: assigning a boolean expression to an integer variable
is rejected naming boolean, integer and the variable. -/
theorem semantic_assignment_rule_witness :
    analyze (Node.assignmentN "x" (Node.booleanN true)) [("x", "integer")] =
      Except.error "Type error: Cannot assign boolean to integer variable x" := by
  have h := semantic_assignment_rule.1 "x" (Node.booleanN true) [("x", "integer")]
    "integer" "boolean" (by simp [List.lookup]) rfl (by decide)
  simpa using h

/-- C6: TAC generation is a pure function of the AST run from freshly
zeroed counters and an empty buffer, so two parses of the same source
give byte-identical instruction sequences. -/
theorem tac_round_trip (src : String) (a b : Node)
    (ha : parseSource src = Except.ok a) (hb : parseSource src = Except.ok b) :
    runTACGen a = runTACGen b := by
  have h := ha.symm.trans hb
  rw [Except.ok.injEq] at h
  rw [h]

/-- C6 witness: two parses of a one-assignment program generate the
same code. -/
theorem tac_round_trip_witness :
    runTACGen (Node.programN "p" [⟨["x"], ⟨"integer"⟩⟩]
        [Node.assignmentN "x" (Node.numN (NumVal.I 1))])
      = runTACGen (Node.programN "p" [⟨["x"], ⟨"integer"⟩⟩]
        [Node.assignmentN "x" (Node.numN (NumVal.I 1))]) :=
  tac_round_trip "program p; var x : integer; begin x := 1 end." _ _ rfl rfl

/-- C7: an undeclared identifier met as a factor aborts the parse with
an error naming the identifier (universally over parser states), and on
the concrete program the whole pipeline fails with exactly that parse
error — compileSource returns the Parsing-failed message, so the
semantic-analysis stage is never reached. -/
theorem parser_undeclared_factor :
    (∀ (fuel : Nat) (st : PState),
       (curTok st).type = "ID" →
       st_is_declared (tokText (curTok st)) st.tbl = false →
       p_factor (fuel + 1) st =
         Except.error ("Semantic error at line " ++ toString (curTok st).line
           ++ ": Variable " ++ tokText (curTok st) ++ " not declared"))
  ∧ parseSource "program p; var x : integer; begin x := y + 1 end." =
      Except.error "Parsing failed: Semantic error at line 1: Variable y not declared"
  ∧ compileSource "program p; var x : integer; begin x := y + 1 end." =
      Except.error "Parsing failed: Semantic error at line 1: Variable y not declared" := by
  refine ⟨?_, rfl, rfl⟩
  intro fuel st hID hnd
  simp [p_factor, hID, hnd]

/-- C7 witness: the factor rule rejects the undeclared identifier y. -/
theorem parser_undeclared_factor_witness :
    p_factor 1 ⟨[⟨"ID", TokenValue.strV "y", 1, 1⟩], ⟨[], 1⟩⟩ =
      Except.error "Semantic error at line 1: Variable y not declared" := by
  have h := parser_undeclared_factor.1 0 ⟨[⟨"ID", TokenValue.strV "y", 1, 1⟩], ⟨[], 1⟩⟩ rfl rfl
  simpa using h

/-- C10: a boolean literal lowers to a fresh temporary assigned the
integer 1 for true and 0 for false; the emitted instruction never
contains the words true or false. -/
theorem tac_boolean_literal (b : Bool) (s : GenState) :
    generate (Node.booleanN b) s =
      ("t" ++ toString s.temp_count,
       ⟨s.temp_count + 1, s.label_count,
        s.code ++ ["t" ++ toString s.temp_count ++ " := " ++ (if b then "1" else "0")]⟩) := by
  obtain ⟨tc, lc, c⟩ := s
  cases b <;> simp [generate, new_temp, emit]

end MiniLang
